import Mathlib

/-!
Verification of the review/product REST backend.

This file gives a shallow embedding of the review subsystem and the product
routes of the repository, and proves or refutes the frozen claims about it.

Conventions of the embedding:
* JavaScript numbers are modelled by `JsNum`: a finite value is a rational,
  and the three non-finite values (NaN, Infinity, -Infinity) are explicit
  constructors.  `Number(x)` coercion of a request field is modelled by the
  field carrying the already coerced `JsNum` (a non-numeric string coerces
  to NaN and is represented by `JsNum.nan`).
* A request-body field that is `undefined` (or, for the string fields and
  the rating, `null` - the routes treat the two alike at every use site
  relevant to a claim) is modelled by `Option.none`.
* The document store is a Lean list of records; the unique index of the
  review collection and the ObjectId cast failure of the driver are
  modelled in the small `db...` functions, which return `Except DbError`.
* Every route handler is a pure function from its inputs and the store to
  a pair of (response, resulting store); errors are `ApiError` values and
  `ApiError.status` gives the HTTP status the route would send.
-/

namespace Shop

/-- A JavaScript number: a finite rational, or one of the non-finite values. -/
inductive JsNum where
  | nan
  | inf
  | negInf
  | fin (q : ℚ)
deriving DecidableEq, Repr

/-- `Number.isFinite` on a `JsNum`. -/
def JsNum.isFinite : JsNum → Bool
  | .fin _ => true
  | _ => false

/-- The JavaScript `<` comparison on numbers (any comparison with NaN is false). -/
def JsNum.lt : JsNum → JsNum → Bool
  | .nan, _ => false
  | _, .nan => false
  | .negInf, .negInf => false
  | .negInf, _ => true
  | _, .negInf => false
  | .inf, _ => false
  | .fin _, .inf => true
  | .fin a, .fin b => decide (a < b)

/-- Rank of a number in the ascending sort order of the document store
(BSON doubles: NaN sorts below every other number). -/
def JsNum.rank : JsNum → Nat
  | .nan => 0
  | .negInf => 1
  | .fin _ => 2
  | .inf => 3

/-- The total ascending order the document store sorts numbers by. -/
def JsNum.le (a b : JsNum) : Bool :=
  match a, b with
  | .fin x, .fin y => decide (x ≤ y)
  | _, _ => decide (a.rank ≤ b.rank)

/-- JavaScript truthiness of a possibly absent string field
(absent, null and the empty string are falsy). -/
def strFalsy : Option String → Bool
  | none => true
  | some s => s == ""

/-- JavaScript truthiness of a possibly absent numeric field
(absent, NaN and 0 are falsy). -/
def priceFalsy : Option JsNum → Bool
  | none => true
  | some .nan => true
  | some (.fin q) => q == 0
  | some _ => false

/-- The blank test the review routes apply to `comment` and `imageUrl`:
`(!v || v.trim() === "")`. -/
def blankStr : Option String → Bool
  | none => true
  | some s => s.trim == ""

/-- mongoose `isValidObjectId`: a 24 character hex string, or any
12 character string (a 12 byte buffer-like value). -/
def isHexChar (c : Char) : Bool :=
  c.isDigit || "abcdefABCDEF".contains c

def isValidObjectId (s : String) : Bool :=
  (s.length == 24 && s.toList.all isHexChar) || s.length == 12

/-- The imageUrl validator of the review schema:
`(v) => !v || /^(https?:\/\/)[^\s]+$/i.test(v)`.
The scheme is matched case-insensitively and the rest of the string must be
non-empty and free of whitespace. -/
def matchesHttpUrl (s : String) : Bool :=
  let t := s.toLower
  if t.startsWith "http://" then
    let rest := s.drop 7
    rest.length > 0 && rest.toList.all (fun c => !c.isWhitespace)
  else if t.startsWith "https://" then
    let rest := s.drop 8
    rest.length > 0 && rest.toList.all (fun c => !c.isWhitespace)
  else
    false

/-- The errors the routes can answer with. -/
inductive ApiError where
  | invalidId (msg : String)
  | emptyReview
  | invalidRating
  | noChanges
  | ownerNotSet
  | missingFields
  | invalidPrice
  | productNotFound
  | reviewNotFound
  | selfReview
  | notAuthor
  | notOwner
  | duplicateReview
  | internal (msg : String)
deriving DecidableEq, Repr

/-- The HTTP status each error is surfaced with. -/
def ApiError.status : ApiError → Nat
  | .invalidId _ => 400
  | .emptyReview => 400
  | .invalidRating => 400
  | .noChanges => 400
  | .ownerNotSet => 400
  | .missingFields => 400
  | .invalidPrice => 400
  | .productNotFound => 404
  | .reviewNotFound => 404
  | .selfReview => 403
  | .notAuthor => 403
  | .notOwner => 403
  | .duplicateReview => 409
  | .internal _ => 500

/-- Errors of the document store driver. -/
inductive DbError where
  | duplicateKey
  | validationFailed
  | castFailed
deriving DecidableEq, Repr

/-- A stored product document.

Modelled from the spec: the product schema file under `src/` lacks the
`owner` path, yet every route variant reads and populates `product.owner`;
the spec data model (section 3) lists `owner` as an optional reference to a
User, so the stored document carries `owner : Option String`. -/
structure Product where
  id : String
  title : String
  description : Option String
  price : JsNum
  category : String
  thumbnail : Option String
  owner : Option String
  createdAt : Nat
deriving DecidableEq, Repr

/-- A stored review document (strict variant of the review schema:
rating optional, comment optional and trimmed, imageUrl optional and
trimmed, product and author required, unique index on (product, author)). -/
structure Review where
  id : String
  product : String
  author : String
  rating : Option JsNum
  comment : Option String
  imageUrl : Option String
  createdAt : Nat
deriving DecidableEq, Repr

/-- The body of a review create or update request.  `author` is a field a
client may put in the body; the routes never read it. -/
structure ReviewBody where
  rating : Option JsNum
  comment : Option String
  imageUrl : Option String
  author : Option String
deriving DecidableEq, Repr

/-- The body of a product create or update request.  `owner` and
`thumbnail` are extra fields a client may put in the body; only the
raw-body update variant ever applies them. -/
structure ProductBody where
  title : Option String
  description : Option String
  price : Option JsNum
  imageUrl : Option String
  category : Option String
  owner : Option String
  thumbnail : Option String
deriving DecidableEq, Repr

/-- The mongoose setters of the review schema (`trim: true` on `comment`
and `imageUrl`), applied before validation and storage. -/
def applySetters (r : Review) : Review :=
  { r with comment := r.comment.map String.trim,
           imageUrl := r.imageUrl.map String.trim }

/-- The validators of the review schema: rating within `min: 1, max: 5`
when present (a non-finite rating fails the pair of bound checks),
comment within `maxlength: 1000`, imageUrl empty or matching the
http(s) pattern. -/
def reviewSchemaValidate (r : Review) : Bool :=
  (match r.rating with
   | none => true
   | some (.fin q) => decide (1 ≤ q) && decide (q ≤ 5)
   | some _ => false) &&
  (match r.comment with
   | none => true
   | some c => c.length ≤ 1000) &&
  (match r.imageUrl with
   | none => true
   | some u => u == "" || matchesHttpUrl u)

/-- `Review.create`: apply setters, run the schema validators, then insert;
the unique index on (product, author) makes the insert fail with a
duplicate-key error (code 11000) when a review with the same pair exists. -/
def dbInsertReview (reviews : List Review) (r : Review) :
    Except DbError (Review × List Review) :=
  if !reviewSchemaValidate (applySetters r) then .error .validationFailed
  else if reviews.any (fun x =>
      x.product == (applySetters r).product && x.author == (applySetters r).author) then
    .error .duplicateKey
  else .ok (applySetters r, reviews ++ [applySetters r])

/-- `findById` of the product collection: a malformed id fails to cast to
an ObjectId and the driver raises a cast error. -/
def dbFindProduct (id : String) (db : List Product) :
    Except DbError (Option Product) :=
  if !isValidObjectId id then .error .castFailed
  else .ok (db.find? (fun p => p.id == id))

/-- `findById` of the review collection. -/
def dbFindReview (id : String) (reviews : List Review) :
    Except DbError (Option Review) :=
  if !isValidObjectId id then .error .castFailed
  else .ok (reviews.find? (fun r => r.id == id))

/-- The rating guard both review routes run when a rating is present:
`const num = Number(rating); !Number.isFinite(num) || num < 1 || num > 5`
rejects; this predicate is the passing condition. -/
def ratingCheckPasses : JsNum → Bool
  | .fin q => decide (1 ≤ q) && decide (q ≤ 5)
  | _ => false

/-- True when a rating is present in the body and fails the rating guard. -/
def ratingPresentAndBad : Option JsNum → Bool
  | none => false
  | some n => !ratingCheckPasses n

/-- The pre-insert checks of `POST /products/:id/reviews` (mounted route),
in source order: ObjectId guard, content-presence check, rating guard,
product lookup, self-review guard (`product.owner && product.owner ===
actor`; an absent owner does not block).  Returns the first error, or
`none` when every check passes. -/
def reviewChecks (actor pid : String) (body : ReviewBody)
    (products : List Product) : Option ApiError :=
  if !isValidObjectId pid then some (.invalidId "Invalid product id")
  else if body.rating.isNone && blankStr body.comment && blankStr body.imageUrl then
    some .emptyReview
  else if ratingPresentAndBad body.rating then some .invalidRating
  else
    match products.find? (fun p => p.id == pid) with
    | none => some .productNotFound
    | some product =>
      match product.owner with
      | some o => if o == actor then some .selfReview else none
      | none => none

/-- The payload `POST /products/:id/reviews` builds: product from the path,
author from the verified token, and rating/comment/imageUrl copied from
the body only when present (`payload.rating = Number(rating)` - the body
already carries the coerced number). -/
def buildPayload (actor pid nid : String) (now : Nat) (body : ReviewBody) :
    Review :=
  { id := nid, product := pid, author := actor,
    rating := body.rating,
    comment := body.comment,
    imageUrl := body.imageUrl,
    createdAt := now }

/-- `POST /products/:id/reviews` (mounted route): run the checks, insert,
and translate a duplicate-key store error into the 409 answer; any other
store error goes to `next(err)` and surfaces as a 500. -/
def createReview (actor pid nid : String) (now : Nat) (body : ReviewBody)
    (products : List Product) (reviews : List Review) :
    Except ApiError Review × List Review :=
  match reviewChecks actor pid body products with
  | some e => (.error e, reviews)
  | none =>
    match dbInsertReview reviews (buildPayload actor pid nid now body) with
    | .error .duplicateKey => (.error .duplicateReview, reviews)
    | .error _ => (.error (.internal "store error"), reviews)
    | .ok (doc, rs) => (.ok doc, rs)

/-- The pre-insert checks of the `POST /products/:id/reviews` variant in
the unnamed route file: identical to `reviewChecks` except that an absent
product owner is answered with 400 "Product owner not set" instead of
being allowed through. -/
def reviewChecksStrict (actor pid : String) (body : ReviewBody)
    (products : List Product) : Option ApiError :=
  if !isValidObjectId pid then some (.invalidId "Invalid product id")
  else if body.rating.isNone && blankStr body.comment && blankStr body.imageUrl then
    some .emptyReview
  else if ratingPresentAndBad body.rating then some .invalidRating
  else
    match products.find? (fun p => p.id == pid) with
    | none => some .productNotFound
    | some product =>
      match product.owner with
      | none => some .ownerNotSet
      | some o => if o == actor then some .selfReview else none

/-- The `POST /products/:id/reviews` variant route (owner must be set). -/
def createReviewStrict (actor pid nid : String) (now : Nat) (body : ReviewBody)
    (products : List Product) (reviews : List Review) :
    Except ApiError Review × List Review :=
  match reviewChecksStrict actor pid body products with
  | some e => (.error e, reviews)
  | none =>
    match dbInsertReview reviews (buildPayload actor pid nid now body) with
    | .error .duplicateKey => (.error .duplicateReview, reviews)
    | .error _ => (.error (.internal "store error"), reviews)
    | .ok (doc, rs) => (.ok doc, rs)

/-- The update document `PATCH /reviews/:reviewId` builds from the body
(only the fields that are present). -/
structure ReviewUpdate where
  rating : Option JsNum
  comment : Option String
  imageUrl : Option String
deriving DecidableEq, Repr

/-- `Object.keys(update).length === 0`. -/
def ReviewUpdate.isEmpty (u : ReviewUpdate) : Bool :=
  u.rating.isNone && u.comment.isNone && u.imageUrl.isNone

/-- The validators `findByIdAndUpdate` runs with `runValidators: true` on
the updated paths only (setters trim the string fields first). -/
def reviewUpdateValidate (u : ReviewUpdate) : Bool :=
  (match u.rating with
   | none => true
   | some (.fin q) => decide (1 ≤ q) && decide (q ≤ 5)
   | some _ => false) &&
  (match u.comment with
   | none => true
   | some c => c.trim.length ≤ 1000) &&
  (match u.imageUrl with
   | none => true
   | some s => s.trim == "" || matchesHttpUrl s.trim)

/-- Merge an update document into a stored review (setters applied to the
incoming string fields). -/
def applyReviewUpdate (r : Review) (u : ReviewUpdate) : Review :=
  { r with
    rating := match u.rating with | some n => some n | none => r.rating,
    comment := match u.comment with | some c => some c.trim | none => r.comment,
    imageUrl := match u.imageUrl with | some s => some s.trim | none => r.imageUrl }

/-- `PATCH /reviews/:reviewId`: ObjectId guard, lookup, author guard,
per-field validation and merge, empty-update guard, then
`findByIdAndUpdate` with `runValidators: true`. -/
def updateReview (actor rid : String) (body : ReviewBody)
    (reviews : List Review) : Except ApiError Review × List Review :=
  if !isValidObjectId rid then (.error (.invalidId "Invalid review id"), reviews)
  else
    match reviews.find? (fun r => r.id == rid) with
    | none => (.error .reviewNotFound, reviews)
    | some review =>
      if review.author != actor then (.error .notAuthor, reviews)
      else if ratingPresentAndBad body.rating then (.error .invalidRating, reviews)
      else
        let u : ReviewUpdate :=
          { rating := body.rating, comment := body.comment, imageUrl := body.imageUrl }
        if u.isEmpty then (.error .noChanges, reviews)
        else if !reviewUpdateValidate u then (.error (.internal "ValidationError"), reviews)
        else
          (.ok (applyReviewUpdate review u),
           reviews.map (fun r => if r.id == rid then applyReviewUpdate review u else r))

/-- `DELETE /reviews/:reviewId`: ObjectId guard, lookup, author guard,
then `findByIdAndDelete`. -/
def deleteReview (actor rid : String) (reviews : List Review) :
    Except ApiError Unit × List Review :=
  if !isValidObjectId rid then (.error (.invalidId "Invalid review id"), reviews)
  else
    match reviews.find? (fun r => r.id == rid) with
    | none => (.error .reviewNotFound, reviews)
    | some review =>
      if review.author != actor then (.error .notAuthor, reviews)
      else (.ok (), reviews.filter (fun r => r.id != rid))

/-- `GET /products/:id/reviews`: ObjectId guard, then the reviews of the
product, newest first. -/
def listReviewsForProduct (pid : String) (reviews : List Review) :
    Except ApiError (List Review) :=
  if !isValidObjectId pid then .error (.invalidId "Invalid product id")
  else
    .ok (List.insertionSort (fun a b => b.createdAt ≤ a.createdAt)
      (reviews.filter (fun r => r.product == pid)))

/-- The query string of `GET /products` in the filtering route variant.
`minPrice` and `maxPrice` carry the `parseFloat` result of the parameter
when the parameter is present (`JsNum.nan` when it does not parse);
an absent parameter also yields NaN (`parseFloat(undefined)`). -/
structure ProductQuery where
  category : Option String
  q : Option String
  minPrice : Option JsNum
  maxPrice : Option JsNum
  sort : Option String
deriving DecidableEq, Repr

/-- Whether `pat` occurs as a contiguous run inside `s`. -/
def charsInfixOf (pat : List Char) : List Char → Bool
  | [] => pat.isEmpty
  | c :: rest => pat.isPrefixOf (c :: rest) || charsInfixOf pat rest

/-- Case-insensitive substring test, modelling the store regex filter
`{ $regex: pat, $options: "i" }` for a pattern without metacharacters. -/
def containsCI (s pat : String) : Bool :=
  charsInfixOf pat.toLower.toList s.toLower.toList

/-- The filter document the listing route builds from the query:
exact category when `category` is truthy, title-or-description substring
when `q` is truthy, and the price bounds whose `parseFloat` is not NaN. -/
def matchesQuery (qry : ProductQuery) (p : Product) : Bool :=
  (match qry.category with
   | none => true
   | some c => if c == "" then true else p.category == c) &&
  (match qry.q with
   | none => true
   | some pat =>
     if pat == "" then true
     else containsCI p.title pat ||
       (match p.description with
        | some d => containsCI d pat
        | none => false)) &&
  (match qry.minPrice.getD .nan with
   | .nan => true
   | m => JsNum.le m p.price) &&
  (match qry.maxPrice.getD .nan with
   | .nan => true
   | m => JsNum.le p.price m)

/-- The three sort stages of the listing route. -/
inductive SortStage where
  | priceAsc
  | priceDesc
  | newest
deriving DecidableEq, Repr

/-- What the JavaScript property read `sortMap[sort]`, combined with the
`|| sortMap["newest"]` fallback, can produce.  Property lookup on the
object literal walks the prototype chain, so besides the three own keys
the read can hit inherited properties of `Object.prototype`: the string
"__proto__" yields `Object.prototype` itself (truthy, so the fallback
does not fire, and it has no own enumerable keys), and the names of the
`Object.prototype` methods yield inherited functions (truthy, not a valid
sort specification).  Only a genuinely absent key reads `undefined`,
which is falsy and takes the fallback. -/
inductive SortLookup where
  | stage (s : SortStage)
  | protoObject
  | inheritedFunction
deriving DecidableEq, Repr

/-- The function-valued own properties of `Object.prototype`, reachable
through the prototype chain of an object literal. -/
def objectProtoMethods : List String :=
  ["constructor", "toString", "toLocaleString", "valueOf", "hasOwnProperty",
   "isPrototypeOf", "propertyIsEnumerable", "__defineGetter__",
   "__defineSetter__", "__lookupGetter__", "__lookupSetter__"]

/-- `sortMap[sort] || sortMap["newest"]`: own keys first, then the
prototype-chain hits; any other string reads `undefined` and falls back
to the newest stage. -/
def sortMapLookup (sort : String) : SortLookup :=
  if sort == "price-asc" then .stage .priceAsc
  else if sort == "price-desc" then .stage .priceDesc
  else if sort == "newest" then .stage .newest
  else if sort == "__proto__" then .protoObject
  else if objectProtoMethods.contains sort then .inheritedFunction
  else .stage .newest

/-- The store sorting a product list by the selected stage. -/
def applySort : SortStage → List Product → List Product
  | .priceAsc, l => List.insertionSort (fun a b => JsNum.le a.price b.price) l
  | .priceDesc, l => List.insertionSort (fun a b => JsNum.le b.price a.price) l
  | .newest, l => List.insertionSort (fun a b => b.createdAt ≤ a.createdAt) l

/-- `GET /products` (filtering route variant): destructure the query with
`sort = "newest"` as default, filter, then hand the looked-up value to the
store `sort()`.  A real stage sorts; `Object.prototype` has no own
enumerable keys, so no order is imposed and the filtered list comes back
in natural order; an inherited function is an invalid sort argument - the
store call throws and the handler surfaces a 500. -/
def listProducts (qry : ProductQuery) (db : List Product) :
    Except ApiError (List Product) :=
  match sortMapLookup (qry.sort.getD "newest") with
  | .stage s => .ok (applySort s (db.filter (matchesQuery qry)))
  | .protoObject => .ok (db.filter (matchesQuery qry))
  | .inheritedFunction => .error (.internal "Invalid sort argument")

/-- `GET /products/:id` (guarded variant): early ObjectId guard, then
lookup. -/
def getProductById (id : String) (db : List Product) : Except ApiError Product :=
  if !isValidObjectId id then .error (.invalidId "Invalid product id")
  else
    match dbFindProduct id db with
    | .error _ => .error (.internal "store error")
    | .ok none => .error .productNotFound
    | .ok (some p) => .ok p

/-- `GET /products/:id` (unguarded variant): `findById` runs directly on
the raw id; a malformed id makes the driver raise a cast error, which the
handler passes to `next(err)` and surfaces as a 500. -/
def getProductByIdUnguarded (id : String) (db : List Product) :
    Except ApiError Product :=
  match dbFindProduct id db with
  | .error _ => .error (.internal "CastError")
  | .ok none => .error .productNotFound
  | .ok (some p) => .ok p

/-- `POST /products` (minimal variant, `src/routes/product.routes.js`):
`if (!title || !price || !category)` rejects - note a supplied price of 0
is falsy and is rejected as missing - and the payload carries no owner. -/
def createProductMinimal (nid : String) (now : Nat) (body : ProductBody)
    (db : List Product) : Except ApiError Product × List Product :=
  if strFalsy body.title || priceFalsy body.price || strFalsy body.category then
    (.error .missingFields, db)
  else
    match body.title, body.price, body.category with
    | some t, some pr, some c =>
      let p : Product :=
        { id := nid, title := t, description := body.description,
          price := pr, category := c,
          thumbnail := if strFalsy body.imageUrl then none else body.imageUrl,
          owner := none, createdAt := now }
      (.ok p, db ++ [p])
    | _, _, _ => (.error .missingFields, db)

/-- `POST /products` (validating variant): presence check with
`price === undefined` (so 0 is present), then
`!Number.isFinite(Number(price)) || Number(price) < 0` rejects, and the
verified token id becomes the owner. -/
def createProductChecked (actor nid : String) (now : Nat) (body : ProductBody)
    (db : List Product) : Except ApiError Product × List Product :=
  if strFalsy body.title || body.price.isNone || strFalsy body.category then
    (.error .missingFields, db)
  else
    match body.title, body.price, body.category with
    | some t, some pr, some c =>
      if !pr.isFinite || JsNum.lt pr (.fin 0) then (.error .invalidPrice, db)
      else
        let p : Product :=
          { id := nid, title := t, description := body.description,
            price := pr, category := c,
            thumbnail := if strFalsy body.imageUrl then none else body.imageUrl,
            owner := some actor, createdAt := now }
        (.ok p, db ++ [p])
    | _, _, _ => (.error .missingFields, db)

/-- The whitelisted update document of the validating `PATCH /products/:id`
variant, applied to the stored product: only title, description, category,
price and thumbnail can change. -/
def whitelistUpdate (p : Product) (body : ProductBody) : Product :=
  { p with
    title := body.title.getD p.title,
    description := match body.description with | some d => some d | none => p.description,
    category := body.category.getD p.category,
    price := body.price.getD p.price,
    thumbnail := match body.imageUrl with | some u => some u | none => p.thumbnail }

/-- `PATCH /products/:id` (validating, whitelisted variant): ObjectId
guard, lookup, owner guard (`product.owner.toString()` throws when the
owner is absent, surfacing as a 500), price re-validation, whitelisted
field mapping, then `findByIdAndUpdate`. -/
def updateProductWhitelist (actor id : String) (body : ProductBody)
    (db : List Product) : Except ApiError Product × List Product :=
  if !isValidObjectId id then (.error (.invalidId "Invalid product id"), db)
  else
    match dbFindProduct id db with
    | .error _ => (.error (.internal "store error"), db)
    | .ok none => (.error .productNotFound, db)
    | .ok (some product) =>
      match product.owner with
      | none => (.error (.internal "TypeError"), db)
      | some o =>
        if o != actor then (.error .notOwner, db)
        else
          match body.price with
          | some pr =>
            if !pr.isFinite || JsNum.lt pr (.fin 0) then (.error .invalidPrice, db)
            else
              (.ok (whitelistUpdate product body),
               db.map (fun p => if p.id == product.id then whitelistUpdate product body else p))
          | none =>
            (.ok (whitelistUpdate product body),
             db.map (fun p => if p.id == product.id then whitelistUpdate product body else p))

/-- The raw-body update: `findByIdAndUpdate(id, req.body)` applies every
schema path present in the body - including `owner` - while fields that
are not schema paths (`imageUrl`) are stripped by strict mode. -/
def rawUpdate (p : Product) (body : ProductBody) : Product :=
  { p with
    title := body.title.getD p.title,
    description := match body.description with | some d => some d | none => p.description,
    category := body.category.getD p.category,
    price := body.price.getD p.price,
    thumbnail := match body.thumbnail with | some u => some u | none => p.thumbnail,
    owner := match body.owner with | some o => some o | none => p.owner }

/-- `PATCH /products/:id` (raw-body variant): no ObjectId guard, lookup,
owner guard, then `findByIdAndUpdate(id, req.body, { new: true })` with
the whole request body as the update document. -/
def updateProductRaw (actor id : String) (body : ProductBody)
    (db : List Product) : Except ApiError Product × List Product :=
  match dbFindProduct id db with
  | .error _ => (.error (.internal "CastError"), db)
  | .ok none => (.error .productNotFound, db)
  | .ok (some product) =>
    match product.owner with
    | none => (.error (.internal "TypeError"), db)
    | some o =>
      if o != actor then (.error .notOwner, db)
      else
        (.ok (rawUpdate product body),
         db.map (fun p => if p.id == product.id then rawUpdate product body else p))

/-- Two reviews hitting the same (product, author) pair. -/
def samePair (a b : Review) : Prop :=
  a.product = b.product ∧ a.author = b.author

/-- The uniqueness invariant the (product, author) index enforces. -/
def atMostOnePerPair (reviews : List Review) : Prop :=
  reviews.Pairwise (fun a b => ¬ samePair a b)

theorem dbInsertReview_ok_elim {reviews : List Review} {r doc : Review}
    {rs : List Review} (h : dbInsertReview reviews r = .ok (doc, rs)) :
    doc = applySetters r ∧ rs = reviews ++ [doc] ∧
    reviewSchemaValidate doc = true ∧
    reviews.any (fun x => x.product == doc.product && x.author == doc.author) = false := by
  unfold dbInsertReview at h
  by_cases hv : reviewSchemaValidate (applySetters r) = true
  · rw [hv] at h
    simp only [Bool.not_true, Bool.false_eq_true, if_false] at h
    by_cases ha : reviews.any
        (fun x => x.product == (applySetters r).product &&
          x.author == (applySetters r).author) = true
    · rw [ha] at h
      simp at h
    · rw [Bool.not_eq_true] at ha
      rw [ha] at h
      simp only [Bool.false_eq_true, if_false, Except.ok.injEq, Prod.mk.injEq] at h
      obtain ⟨hdoc, hrs⟩ := h
      subst hdoc
      exact ⟨rfl, hrs.symm, hv, ha⟩
  · rw [Bool.not_eq_true] at hv
    rw [hv] at h
    simp at h

theorem createReview_ok_elim {actor pid nid : String} {now : Nat}
    {body : ReviewBody} {products : List Product} {reviews : List Review}
    {rv : Review} {rs : List Review}
    (h : createReview actor pid nid now body products reviews = (.ok rv, rs)) :
    reviewChecks actor pid body products = none ∧
    dbInsertReview reviews (buildPayload actor pid nid now body) = .ok (rv, rs) := by
  unfold createReview at h
  cases hc : reviewChecks actor pid body products with
  | some e => rw [hc] at h; simp at h
  | none =>
    rw [hc] at h
    cases hd : dbInsertReview reviews (buildPayload actor pid nid now body) with
    | error e => rw [hd] at h; cases e <;> simp at h
    | ok pr =>
      rw [hd] at h
      obtain ⟨doc, rs0⟩ := pr
      simp only [Prod.mk.injEq, Except.ok.injEq] at h
      obtain ⟨h1, h2⟩ := h
      subst h1; subst h2
      exact ⟨rfl, rfl⟩

/-- Claim C1: at most one review per (product, author) pair; a second
create for the same pair is answered with `DuplicateReview` and HTTP 409,
the duplicate-key store error being translated rather than leaked raw. -/
theorem C1_duplicate_review_conflict
    (actor pid nid nid2 : String) (now now2 : Nat) (body : ReviewBody)
    (products : List Product) (reviews rs : List Review) (rv : Review)
    (hinv : atMostOnePerPair reviews)
    (hok : createReview actor pid nid now body products reviews = (.ok rv, rs)) :
    atMostOnePerPair rs ∧
    (createReview actor pid nid2 now2 body products rs).1
      = .error .duplicateReview ∧
    ApiError.status .duplicateReview = 409 := by
  obtain ⟨hchecks, hins⟩ := createReview_ok_elim hok
  obtain ⟨hdoc, hrs, hval, hany⟩ := dbInsertReview_ok_elim hins
  have hnodup : ∀ x ∈ reviews, ¬ samePair x rv := by
    intro x hx hpair
    have := List.any_eq_false.mp hany x hx
    simp only [Bool.and_eq_true, beq_iff_eq] at this
    exact this ⟨hpair.1, hpair.2⟩
  constructor
  · rw [hrs]
    unfold atMostOnePerPair at hinv ⊢
    rw [List.pairwise_append]
    refine ⟨hinv, List.pairwise_singleton _ _, ?_⟩
    intro a ha b hb
    rw [List.mem_singleton] at hb
    subst hb
    exact hnodup a ha
  refine ⟨?_, rfl⟩
  have hproduct : rv.product = pid := by rw [hdoc]; rfl
  have hauthor : rv.author = actor := by rw [hdoc]; rfl
  have hval2 : reviewSchemaValidate
      (applySetters (buildPayload actor pid nid2 now2 body)) = true := by
    rw [hdoc] at hval
    exact hval
  have hmem : rv ∈ rs := by rw [hrs]; simp
  have hany2 : rs.any (fun x =>
      x.product == (applySetters (buildPayload actor pid nid2 now2 body)).product &&
      x.author == (applySetters (buildPayload actor pid nid2 now2 body)).author) = true := by
    rw [List.any_eq_true]
    refine ⟨rv, hmem, ?_⟩
    simp only [Bool.and_eq_true, beq_iff_eq]
    exact ⟨hproduct, hauthor⟩
  have hdb2 : dbInsertReview rs (buildPayload actor pid nid2 now2 body)
      = .error .duplicateKey := by
    unfold dbInsertReview
    rw [hval2]
    simp only [Bool.not_true, Bool.false_eq_true, if_false]
    rw [hany2]
    simp
  unfold createReview
  rw [hchecks, hdb2]

/-- Witness for C1: on a singleton product store, the first review create
by an outside user succeeds and the identical repeat is answered 409. -/
theorem C1_duplicate_review_conflict_witness :
    atMostOnePerPair
      [{ id := "rrrrrrrrrrrr", product := "pppppppppppp", author := "uuuuuuuuuuuu",
         rating := some (.fin 5), comment := none, imageUrl := none, createdAt := 5 }] ∧
    (createReview "uuuuuuuuuuuu" "pppppppppppp" "ssssssssssss" 6
      { rating := some (.fin 5), comment := none, imageUrl := none, author := none }
      [{ id := "pppppppppppp", title := "T", description := none, price := .fin 3,
         category := "C", thumbnail := none, owner := some "oooooooooooo", createdAt := 1 }]
      [{ id := "rrrrrrrrrrrr", product := "pppppppppppp", author := "uuuuuuuuuuuu",
         rating := some (.fin 5), comment := none, imageUrl := none, createdAt := 5 }]).1
      = .error .duplicateReview ∧
    ApiError.status .duplicateReview = 409 :=
  C1_duplicate_review_conflict "uuuuuuuuuuuu" "pppppppppppp" "rrrrrrrrrrrr"
    "ssssssssssss" 5 6
    { rating := some (.fin 5), comment := none, imageUrl := none, author := none }
    [{ id := "pppppppppppp", title := "T", description := none, price := .fin 3,
       category := "C", thumbnail := none, owner := some "oooooooooooo", createdAt := 1 }]
    []
    [{ id := "rrrrrrrrrrrr", product := "pppppppppppp", author := "uuuuuuuuuuuu",
       rating := some (.fin 5), comment := none, imageUrl := none, createdAt := 5 }]
    { id := "rrrrrrrrrrrr", product := "pppppppppppp", author := "uuuuuuuuuuuu",
      rating := some (.fin 5), comment := none, imageUrl := none, createdAt := 5 }
    List.Pairwise.nil (by rfl)

/-- The content guarantee of a stored review: at least one of rating,
comment, imageUrl is present and non-empty. -/
def hasContent (r : Review) : Prop :=
  r.rating.isSome = true ∨
  (∃ c, r.comment = some c ∧ c ≠ "") ∨
  (∃ u, r.imageUrl = some u ∧ u ≠ "")

theorem reviewChecks_none_elim {actor pid : String} {body : ReviewBody}
    {products : List Product}
    (h : reviewChecks actor pid body products = none) :
    isValidObjectId pid = true ∧
    (body.rating.isNone && blankStr body.comment && blankStr body.imageUrl) = false ∧
    ratingPresentAndBad body.rating = false ∧
    ∃ product, products.find? (fun p => p.id == pid) = some product ∧
      ∀ o, product.owner = some o → (o == actor) = false := by
  unfold reviewChecks at h
  by_cases h1 : isValidObjectId pid
  case neg =>
    rw [Bool.not_eq_true] at h1
    rw [h1] at h
    simp at h
  rw [h1] at h
  simp only [Bool.not_true, Bool.false_eq_true, if_false] at h
  by_cases h2 : (body.rating.isNone && blankStr body.comment && blankStr body.imageUrl) = true
  case pos => rw [h2] at h; simp at h
  rw [Bool.not_eq_true] at h2
  rw [h2] at h
  simp only [Bool.false_eq_true, if_false] at h
  by_cases h3 : ratingPresentAndBad body.rating = true
  case pos => rw [h3] at h; simp at h
  rw [Bool.not_eq_true] at h3
  rw [h3] at h
  simp only [Bool.false_eq_true, if_false] at h
  refine ⟨h1, h2, h3, ?_⟩
  cases hf : products.find? (fun p => p.id == pid) with
  | none => rw [hf] at h; simp at h
  | some product =>
    rw [hf] at h
    have h5 : (match product.owner with
      | some o => if o == actor then some ApiError.selfReview else none
      | none => none) = none := h
    refine ⟨product, rfl, ?_⟩
    intro o ho
    rw [ho] at h5
    have h6 : (if o == actor then some ApiError.selfReview else none)
        = (none : Option ApiError) := h5
    by_cases h4 : (o == actor) = true
    · rw [h4] at h6; simp at h6
    · rw [Bool.not_eq_true] at h4; exact h4

/-- Claim C3: a create whose rating is absent and whose comment and
imageUrl are absent or blank is rejected with `EmptyReview` (400) and the
store is untouched; consequently, when every stored review has some
content, every review stored after a successful create still does. -/
theorem C3_empty_review
    (actor pid nid : String) (now : Nat) (body : ReviewBody)
    (products : List Product) (reviews : List Review) :
    (isValidObjectId pid = true → body.rating = none →
     blankStr body.comment = true → blankStr body.imageUrl = true →
     createReview actor pid nid now body products reviews
       = (.error .emptyReview, reviews) ∧
     ApiError.status .emptyReview = 400) ∧
    ((∀ r ∈ reviews, hasContent r) →
     ∀ rv rs, createReview actor pid nid now body products reviews = (.ok rv, rs) →
     ∀ r ∈ rs, hasContent r) := by
  constructor
  · intro hid hr hc hi
    refine ⟨?_, rfl⟩
    unfold createReview reviewChecks
    rw [hid]
    simp only [Bool.not_true, Bool.false_eq_true, if_false]
    rw [hr, hc, hi]
    simp
  · intro hall rv rs hok
    obtain ⟨hchecks, hins⟩ := createReview_ok_elim hok
    obtain ⟨hdoc, hrs, _, _⟩ := dbInsertReview_ok_elim hins
    obtain ⟨_, hnotempty, _, _⟩ := reviewChecks_none_elim hchecks
    intro r hr
    rw [hrs] at hr
    rw [List.mem_append, List.mem_singleton] at hr
    cases hr with
    | inl hmem => exact hall r hmem
    | inr heq =>
      subst heq
      subst hdoc
      rw [Bool.and_eq_false_iff, Bool.and_eq_false_iff] at hnotempty
      rcases hnotempty with (hrating | hcomment) | himage
      · left
        cases hb : body.rating with
        | none => rw [hb] at hrating; simp at hrating
        | some n =>
          show (applySetters (buildPayload actor pid nid now body)).rating.isSome = true
          unfold applySetters buildPayload
          rw [hb]
          rfl
      · right; left
        cases hb : body.comment with
        | none => unfold blankStr at hcomment; rw [hb] at hcomment; simp at hcomment
        | some c =>
          refine ⟨c.trim, ?_, ?_⟩
          · show (applySetters (buildPayload actor pid nid now body)).comment = some c.trim
            unfold applySetters buildPayload
            rw [hb]
            rfl
          · unfold blankStr at hcomment
            rw [hb] at hcomment
            simpa using hcomment
      · right; right
        cases hb : body.imageUrl with
        | none => unfold blankStr at himage; rw [hb] at himage; simp at himage
        | some u =>
          refine ⟨u.trim, ?_, ?_⟩
          · show (applySetters (buildPayload actor pid nid now body)).imageUrl = some u.trim
            unfold applySetters buildPayload
            rw [hb]
            rfl
          · unfold blankStr at himage
            rw [hb] at himage
            simpa using himage

/-- Witness for C3: the all-blank create is answered `EmptyReview` with the
store untouched, and a successful create on an empty store leaves only
reviews with content. -/
theorem C3_empty_review_witness :
    (createReview "uuuuuuuuuuuu" "pppppppppppp" "rrrrrrrrrrrr" 5
      { rating := none, comment := none, imageUrl := none, author := none }
      [{ id := "pppppppppppp", title := "T", description := none, price := .fin 3,
         category := "C", thumbnail := none, owner := some "oooooooooooo", createdAt := 1 }]
      [] = (.error .emptyReview, []) ∧
     ApiError.status .emptyReview = 400) ∧
    (∀ r ∈ [({ id := "rrrrrrrrrrrr", product := "pppppppppppp",
               author := "uuuuuuuuuuuu", rating := some (.fin 4),
               comment := none, imageUrl := none, createdAt := 5 } : Review)],
      hasContent r) := by
  constructor
  · exact (C3_empty_review "uuuuuuuuuuuu" "pppppppppppp" "rrrrrrrrrrrr" 5
      { rating := none, comment := none, imageUrl := none, author := none }
      [{ id := "pppppppppppp", title := "T", description := none, price := .fin 3,
         category := "C", thumbnail := none, owner := some "oooooooooooo", createdAt := 1 }]
      []).1 rfl rfl rfl rfl
  · exact (C3_empty_review "uuuuuuuuuuuu" "pppppppppppp" "rrrrrrrrrrrr" 5
      { rating := some (.fin 4), comment := none, imageUrl := none, author := none }
      [{ id := "pppppppppppp", title := "T", description := none, price := .fin 3,
         category := "C", thumbnail := none, owner := some "oooooooooooo", createdAt := 1 }]
      []).2 (by simp)
      { id := "rrrrrrrrrrrr", product := "pppppppppppp", author := "uuuuuuuuuuuu",
        rating := some (.fin 4), comment := none, imageUrl := none, createdAt := 5 }
      [{ id := "rrrrrrrrrrrr", product := "pppppppppppp", author := "uuuuuuuuuuuu",
         rating := some (.fin 4), comment := none, imageUrl := none, createdAt := 5 }]
      (by rfl)

/-- Claim C2 counterexample: the rating guard accepts 3/2, which is not an
integer, so "passes only if rating is an integer in [1,5]" fails on the
code - the guard tests `Number.isFinite` and the bounds, never
integrality. -/
theorem C2_noninteger_rating_counterexample :
    ratingCheckPasses (.fin (mkRat 3 2)) = true ∧ (mkRat 3 2).isInt = false := by
  exact ⟨by decide, by decide⟩

/-- Claim C2 (amended): a present rating passes the guard iff its numeric
coercion is a finite number q with 1 ≤ q ≤ 5 (integrality is not
required); rating 0, rating 6 and a non-numeric rating (NaN after
coercion) fail, and a failing present rating makes both the create and the
update route answer `InvalidRating` (400) with the store untouched. -/
theorem C2_rating_validation
    (actor pid rid nid : String) (now : Nat) (body : ReviewBody)
    (products : List Product) (reviews : List Review) (n : JsNum)
    (review : Review) :
    (ratingCheckPasses n = true ↔ ∃ q : ℚ, n = .fin q ∧ 1 ≤ q ∧ q ≤ 5) ∧
    ratingCheckPasses (.fin 0) = false ∧
    ratingCheckPasses (.fin 6) = false ∧
    ratingCheckPasses .nan = false ∧
    (isValidObjectId pid = true → body.rating = some n →
     ratingCheckPasses n = false →
     createReview actor pid nid now body products reviews
       = (.error .invalidRating, reviews) ∧
     ApiError.status .invalidRating = 400) ∧
    (isValidObjectId rid = true →
     reviews.find? (fun r => r.id == rid) = some review →
     review.author = actor → body.rating = some n →
     ratingCheckPasses n = false →
     updateReview actor rid body reviews = (.error .invalidRating, reviews)) := by
  refine ⟨?_, by decide, by decide, by decide, ?_, ?_⟩
  · cases n with
    | fin q => simp [ratingCheckPasses]
    | nan => simp [ratingCheckPasses]
    | inf => simp [ratingCheckPasses]
    | negInf => simp [ratingCheckPasses]
  · intro hid hb hpass
    refine ⟨?_, rfl⟩
    unfold createReview reviewChecks
    rw [hid, hb]
    simp [ratingPresentAndBad, hpass]
  · intro hid hfind hauth hb hpass
    unfold updateReview
    rw [hid, hfind]
    simp [hauth, hb, ratingPresentAndBad, hpass]

/-- Witness for C2: rating 6 is rejected by both routes with 400. -/
theorem C2_rating_validation_witness :
    (createReview "uuuuuuuuuuuu" "pppppppppppp" "ssssssssssss" 6
      { rating := some (.fin 6), comment := none, imageUrl := none, author := none }
      [] [] = (.error .invalidRating, []) ∧
     ApiError.status .invalidRating = 400) ∧
    updateReview "uuuuuuuuuuuu" "rrrrrrrrrrrr"
      { rating := some (.fin 6), comment := none, imageUrl := none, author := none }
      [{ id := "rrrrrrrrrrrr", product := "pppppppppppp", author := "uuuuuuuuuuuu",
         rating := some (.fin 4), comment := none, imageUrl := none, createdAt := 5 }]
      = (.error .invalidRating,
         [{ id := "rrrrrrrrrrrr", product := "pppppppppppp", author := "uuuuuuuuuuuu",
            rating := some (.fin 4), comment := none, imageUrl := none, createdAt := 5 }]) := by
  constructor
  · exact (C2_rating_validation "uuuuuuuuuuuu" "pppppppppppp" "rrrrrrrrrrrr"
      "ssssssssssss" 6
      { rating := some (.fin 6), comment := none, imageUrl := none, author := none }
      [] [] (.fin 6)
      { id := "rrrrrrrrrrrr", product := "pppppppppppp", author := "uuuuuuuuuuuu",
        rating := some (.fin 4), comment := none, imageUrl := none, createdAt := 5 }).2.2.2.2.1
      rfl rfl (by decide)
  · exact (C2_rating_validation "uuuuuuuuuuuu" "pppppppppppp" "rrrrrrrrrrrr"
      "ssssssssssss" 6
      { rating := some (.fin 6), comment := none, imageUrl := none, author := none }
      []
      [{ id := "rrrrrrrrrrrr", product := "pppppppppppp", author := "uuuuuuuuuuuu",
         rating := some (.fin 4), comment := none, imageUrl := none, createdAt := 5 }]
      (.fin 6)
      { id := "rrrrrrrrrrrr", product := "pppppppppppp", author := "uuuuuuuuuuuu",
        rating := some (.fin 4), comment := none, imageUrl := none, createdAt := 5 }).2.2.2.2.2
      rfl rfl rfl rfl (by decide)

/-- Claim C5: a review update or delete by an actor who is not the
recorded author is answered 403 `NotAuthor` and the store is unchanged. -/
theorem C5_author_only_update_delete
    (actor rid : String) (body : ReviewBody) (reviews : List Review)
    (review : Review)
    (hid : isValidObjectId rid = true)
    (hfind : reviews.find? (fun r => r.id == rid) = some review)
    (hne : review.author ≠ actor) :
    updateReview actor rid body reviews = (.error .notAuthor, reviews) ∧
    deleteReview actor rid reviews = (.error .notAuthor, reviews) ∧
    ApiError.status .notAuthor = 403 := by
  refine ⟨?_, ?_, rfl⟩
  · unfold updateReview
    rw [hid, hfind]
    simp [hne]
  · unfold deleteReview
    rw [hid, hfind]
    simp [hne]

/-- Witness for C5: a stranger's update and delete of a stored review are
both answered 403 with the store untouched. -/
theorem C5_author_only_update_delete_witness :
    updateReview "vvvvvvvvvvvv" "rrrrrrrrrrrr"
      { rating := some (.fin 5), comment := none, imageUrl := none, author := none }
      [{ id := "rrrrrrrrrrrr", product := "pppppppppppp", author := "uuuuuuuuuuuu",
         rating := some (.fin 4), comment := none, imageUrl := none, createdAt := 5 }]
      = (.error .notAuthor,
         [{ id := "rrrrrrrrrrrr", product := "pppppppppppp", author := "uuuuuuuuuuuu",
            rating := some (.fin 4), comment := none, imageUrl := none, createdAt := 5 }]) ∧
    deleteReview "vvvvvvvvvvvv" "rrrrrrrrrrrr"
      [{ id := "rrrrrrrrrrrr", product := "pppppppppppp", author := "uuuuuuuuuuuu",
         rating := some (.fin 4), comment := none, imageUrl := none, createdAt := 5 }]
      = (.error .notAuthor,
         [{ id := "rrrrrrrrrrrr", product := "pppppppppppp", author := "uuuuuuuuuuuu",
            rating := some (.fin 4), comment := none, imageUrl := none, createdAt := 5 }]) ∧
    ApiError.status .notAuthor = 403 :=
  C5_author_only_update_delete "vvvvvvvvvvvv" "rrrrrrrrrrrr"
    { rating := some (.fin 5), comment := none, imageUrl := none, author := none }
    [{ id := "rrrrrrrrrrrr", product := "pppppppppppp", author := "uuuuuuuuuuuu",
       rating := some (.fin 4), comment := none, imageUrl := none, createdAt := 5 }]
    { id := "rrrrrrrrrrrr", product := "pppppppppppp", author := "uuuuuuuuuuuu",
      rating := some (.fin 4), comment := none, imageUrl := none, createdAt := 5 }
    rfl rfl (by decide)

/-- Claim C4 counterexample: in the variant review route, a create on a
product whose owner is absent is answered 400 "Product owner not set"
instead of being permitted, so "absence is treated as no conflict, not as
an error" fails on that handler. -/
theorem C4_absent_owner_counterexample :
    createReviewStrict "uuuuuuuuuuuu" "pppppppppppp" "rrrrrrrrrrrr" 5
      { rating := some (.fin 4), comment := none, imageUrl := none, author := none }
      [{ id := "pppppppppppp", title := "T", description := none, price := .fin 3,
         category := "C", thumbnail := none, owner := none, createdAt := 1 }]
      [] = (.error .ownerNotSet, []) ∧
    ApiError.status .ownerNotSet = 400 :=
  ⟨rfl, rfl⟩

/-- Claim C4 (amended): in the mounted review route, a create on a product
the actor owns is answered 403 `SelfReview`; an absent owner does not
block - the checks pass and the request proceeds to the insert.  In the
variant route, an absent owner is instead answered 400 "Product owner not
set". -/
theorem C4_self_review_owner
    (actor pid nid : String) (now : Nat) (body : ReviewBody)
    (products : List Product) (reviews : List Review) (product : Product)
    (hid : isValidObjectId pid = true)
    (hnonempty : (body.rating.isNone && blankStr body.comment
      && blankStr body.imageUrl) = false)
    (hrating : ratingPresentAndBad body.rating = false)
    (hfind : products.find? (fun p => p.id == pid) = some product) :
    (product.owner = some actor →
      createReview actor pid nid now body products reviews
        = (.error .selfReview, reviews) ∧
      ApiError.status .selfReview = 403) ∧
    (product.owner = none →
      reviewChecks actor pid body products = none ∧
      ∀ doc rs,
        dbInsertReview reviews (buildPayload actor pid nid now body) = .ok (doc, rs) →
        createReview actor pid nid now body products reviews = (.ok doc, rs)) ∧
    (product.owner = none →
      createReviewStrict actor pid nid now body products reviews
        = (.error .ownerNotSet, reviews) ∧
      ApiError.status .ownerNotSet = 400) := by
  refine ⟨?_, ?_, ?_⟩
  · intro howner
    refine ⟨?_, rfl⟩
    simp [createReview, reviewChecks, hid, hnonempty, hrating, hfind, howner]
  · intro howner
    have hchecks : reviewChecks actor pid body products = none := by
      simp [reviewChecks, hid, hnonempty, hrating, hfind, howner]
    refine ⟨hchecks, ?_⟩
    intro doc rs hins
    unfold createReview
    rw [hchecks, hins]
  · intro howner
    refine ⟨?_, rfl⟩
    simp [createReviewStrict, reviewChecksStrict, hid, hnonempty, hrating, hfind, howner]

/-- Witness for C4: the owner reviewing their own product is answered 403;
on an owner-less product the mounted route inserts the review while the
variant route answers 400. -/
theorem C4_self_review_owner_witness :
    (createReview "oooooooooooo" "pppppppppppp" "rrrrrrrrrrrr" 5
      { rating := some (.fin 4), comment := none, imageUrl := none, author := none }
      [{ id := "pppppppppppp", title := "T", description := none, price := .fin 3,
         category := "C", thumbnail := none, owner := some "oooooooooooo", createdAt := 1 }]
      [] = (.error .selfReview, []) ∧
     ApiError.status .selfReview = 403) ∧
    createReview "uuuuuuuuuuuu" "qqqqqqqqqqqq" "ssssssssssss" 6
      { rating := some (.fin 4), comment := none, imageUrl := none, author := none }
      [{ id := "qqqqqqqqqqqq", title := "T", description := none, price := .fin 3,
         category := "C", thumbnail := none, owner := none, createdAt := 1 }]
      [] = (.ok { id := "ssssssssssss", product := "qqqqqqqqqqqq",
                  author := "uuuuuuuuuuuu", rating := some (.fin 4),
                  comment := none, imageUrl := none, createdAt := 6 },
            [{ id := "ssssssssssss", product := "qqqqqqqqqqqq",
               author := "uuuuuuuuuuuu", rating := some (.fin 4),
               comment := none, imageUrl := none, createdAt := 6 }]) ∧
    (createReviewStrict "uuuuuuuuuuuu" "qqqqqqqqqqqq" "ssssssssssss" 6
      { rating := some (.fin 4), comment := none, imageUrl := none, author := none }
      [{ id := "qqqqqqqqqqqq", title := "T", description := none, price := .fin 3,
         category := "C", thumbnail := none, owner := none, createdAt := 1 }]
      [] = (.error .ownerNotSet, []) ∧
     ApiError.status .ownerNotSet = 400) := by
  refine ⟨?_, ?_, ?_⟩
  · exact (C4_self_review_owner "oooooooooooo" "pppppppppppp" "rrrrrrrrrrrr" 5
      { rating := some (.fin 4), comment := none, imageUrl := none, author := none }
      [{ id := "pppppppppppp", title := "T", description := none, price := .fin 3,
         category := "C", thumbnail := none, owner := some "oooooooooooo", createdAt := 1 }]
      []
      { id := "pppppppppppp", title := "T", description := none, price := .fin 3,
        category := "C", thumbnail := none, owner := some "oooooooooooo", createdAt := 1 }
      rfl rfl (by decide) rfl).1 rfl
  · exact ((C4_self_review_owner "uuuuuuuuuuuu" "qqqqqqqqqqqq" "ssssssssssss" 6
      { rating := some (.fin 4), comment := none, imageUrl := none, author := none }
      [{ id := "qqqqqqqqqqqq", title := "T", description := none, price := .fin 3,
         category := "C", thumbnail := none, owner := none, createdAt := 1 }]
      []
      { id := "qqqqqqqqqqqq", title := "T", description := none, price := .fin 3,
        category := "C", thumbnail := none, owner := none, createdAt := 1 }
      rfl rfl (by decide) rfl).2.1 rfl).2
      { id := "ssssssssssss", product := "qqqqqqqqqqqq", author := "uuuuuuuuuuuu",
        rating := some (.fin 4), comment := none, imageUrl := none, createdAt := 6 }
      [{ id := "ssssssssssss", product := "qqqqqqqqqqqq", author := "uuuuuuuuuuuu",
         rating := some (.fin 4), comment := none, imageUrl := none, createdAt := 6 }]
      (by rfl)
  · exact (C4_self_review_owner "uuuuuuuuuuuu" "qqqqqqqqqqqq" "ssssssssssss" 6
      { rating := some (.fin 4), comment := none, imageUrl := none, author := none }
      [{ id := "qqqqqqqqqqqq", title := "T", description := none, price := .fin 3,
         category := "C", thumbnail := none, owner := none, createdAt := 1 }]
      []
      { id := "qqqqqqqqqqqq", title := "T", description := none, price := .fin 3,
        category := "C", thumbnail := none, owner := none, createdAt := 1 }
      rfl rfl (by decide) rfl).2.2 rfl

theorem jsLe_total (a b : JsNum) : JsNum.le a b = true ∨ JsNum.le b a = true := by
  cases a <;> cases b <;>
    simp only [JsNum.le, JsNum.rank, decide_eq_true_eq] <;>
    exact le_total _ _

theorem jsLe_trans {a b c : JsNum} (h1 : JsNum.le a b = true)
    (h2 : JsNum.le b c = true) : JsNum.le a c = true := by
  cases a <;> cases b <;> cases c <;>
    simp only [JsNum.le, JsNum.rank, decide_eq_true_eq] at h1 h2 ⊢ <;>
    first
    | trivial
    | omega
    | exact le_trans h1 h2

instance : IsTotal Product fun a b => JsNum.le a.price b.price = true :=
  ⟨fun a b => jsLe_total a.price b.price⟩

instance : IsTrans Product fun a b => JsNum.le a.price b.price = true :=
  ⟨fun _ _ _ h1 h2 => jsLe_trans h1 h2⟩

instance : IsTotal Product fun a b => JsNum.le b.price a.price = true :=
  ⟨fun a b => jsLe_total b.price a.price⟩

instance : IsTrans Product fun a b => JsNum.le b.price a.price = true :=
  ⟨fun _ _ _ h1 h2 => jsLe_trans h2 h1⟩

instance : IsTotal Product fun a b => b.createdAt ≤ a.createdAt :=
  ⟨fun a b => Nat.le_total b.createdAt a.createdAt⟩

instance : IsTrans Product fun a b => b.createdAt ≤ a.createdAt :=
  ⟨fun _ _ _ h1 h2 => Nat.le_trans h2 h1⟩

/-- Claim C6 counterexample: the sort value "__proto__" hits the
prototype chain of the sortMap literal - the lookup is truthy, so the
newest fallback never fires, no sort stage is applied, and the listing
comes back in store order, not newest-first; the sort value "constructor"
reads an inherited function and the store sort call throws, surfacing a
500.  So unrecognized sort values do not all fall back to newest-first. -/
theorem C6_proto_sort_counterexample :
    listProducts ⟨none, none, none, none, some "__proto__"⟩
      [{ id := "aaaaaaaaaaaa", title := "A", description := none, price := .fin 9,
         category := "C", thumbnail := none, owner := none, createdAt := 1 },
       { id := "bbbbbbbbbbbb", title := "B", description := none, price := .fin 2,
         category := "C", thumbnail := none, owner := none, createdAt := 4 }]
      = .ok [{ id := "aaaaaaaaaaaa", title := "A", description := none, price := .fin 9,
               category := "C", thumbnail := none, owner := none, createdAt := 1 },
             { id := "bbbbbbbbbbbb", title := "B", description := none, price := .fin 2,
               category := "C", thumbnail := none, owner := none, createdAt := 4 }] ∧
    ¬ List.Sorted (fun a b => b.createdAt ≤ a.createdAt)
      [({ id := "aaaaaaaaaaaa", title := "A", description := none, price := .fin 9,
          category := "C", thumbnail := none, owner := none, createdAt := 1 } : Product),
       { id := "bbbbbbbbbbbb", title := "B", description := none, price := .fin 2,
         category := "C", thumbnail := none, owner := none, createdAt := 4 }] ∧
    listProducts ⟨none, none, none, none, some "newest"⟩
      [{ id := "aaaaaaaaaaaa", title := "A", description := none, price := .fin 9,
         category := "C", thumbnail := none, owner := none, createdAt := 1 },
       { id := "bbbbbbbbbbbb", title := "B", description := none, price := .fin 2,
         category := "C", thumbnail := none, owner := none, createdAt := 4 }]
      = .ok [{ id := "bbbbbbbbbbbb", title := "B", description := none, price := .fin 2,
               category := "C", thumbnail := none, owner := none, createdAt := 4 },
             { id := "aaaaaaaaaaaa", title := "A", description := none, price := .fin 9,
               category := "C", thumbnail := none, owner := none, createdAt := 1 }] ∧
    listProducts ⟨none, none, none, none, some "constructor"⟩
      [{ id := "aaaaaaaaaaaa", title := "A", description := none, price := .fin 9,
         category := "C", thumbnail := none, owner := none, createdAt := 1 }]
      = .error (.internal "Invalid sort argument") ∧
    ApiError.status (.internal "Invalid sort argument") = 500 :=
  ⟨rfl, by decide, rfl, rfl, rfl⟩

/-- Claim C6 (amended): `sort=price-asc` lists the filtered products in
non-decreasing price order (a permutation of the filtered store),
`sort=price-desc` in non-increasing order, and an unset or unrecognized
sort value falls back to the newest-first listing, sorted by descending
creation time - except for the inherited property names of the sortMap
literal: "__proto__" yields a truthy empty sort specification (the
filtered listing in store order, unsorted), and the `Object.prototype`
method names make the store sort call throw, surfacing a 500. -/
theorem C6_product_sort (cat qs : Option String) (mn mx : Option JsNum)
    (db : List Product) :
    (∃ l, listProducts ⟨cat, qs, mn, mx, some "price-asc"⟩ db = .ok l ∧
      List.Sorted (fun a b => JsNum.le a.price b.price = true) l ∧
      List.Perm l (db.filter (matchesQuery ⟨cat, qs, mn, mx, some "price-asc"⟩))) ∧
    (∃ l, listProducts ⟨cat, qs, mn, mx, some "price-desc"⟩ db = .ok l ∧
      List.Sorted (fun a b => JsNum.le b.price a.price = true) l) ∧
    (∀ s : Option String,
      (s = none ∨ ∀ t, s = some t → t ≠ "price-asc" ∧ t ≠ "price-desc" ∧
        t ≠ "__proto__" ∧ objectProtoMethods.contains t = false) →
      listProducts ⟨cat, qs, mn, mx, s⟩ db
        = listProducts ⟨cat, qs, mn, mx, some "newest"⟩ db ∧
      ∃ l, listProducts ⟨cat, qs, mn, mx, s⟩ db = .ok l ∧
        List.Sorted (fun a b => b.createdAt ≤ a.createdAt) l) ∧
    listProducts ⟨cat, qs, mn, mx, some "__proto__"⟩ db
      = .ok (db.filter (matchesQuery ⟨cat, qs, mn, mx, some "__proto__"⟩)) ∧
    (∀ t, objectProtoMethods.contains t = true →
      listProducts ⟨cat, qs, mn, mx, some t⟩ db
        = .error (.internal "Invalid sort argument") ∧
      ApiError.status (.internal "Invalid sort argument") = 500) := by
  refine ⟨?_, ?_, ?_, rfl, ?_⟩
  · exact ⟨_, rfl, List.sorted_insertionSort _ _, List.perm_insertionSort _ _⟩
  · exact ⟨_, rfl, List.sorted_insertionSort _ _⟩
  · intro s hs
    cases s with
    | none =>
      exact ⟨rfl, _, rfl, List.sorted_insertionSort _ _⟩
    | some t =>
      have ht : t ≠ "price-asc" ∧ t ≠ "price-desc" ∧ t ≠ "__proto__" ∧
          objectProtoMethods.contains t = false := by
        rcases hs with h | h
        · exact absurd h (by simp)
        · exact h t rfl
      obtain ⟨h1, h2, h3, h4⟩ := ht
      have e1 : (t == "price-asc") = false := by simpa using h1
      have e2 : (t == "price-desc") = false := by simpa using h2
      have e3 : (t == "__proto__") = false := by simpa using h3
      have hlookup : sortMapLookup t = .stage .newest := by
        simp only [sortMapLookup, e1, e2, e3, h4, Bool.false_eq_true, if_false]
        split <;> rfl
      have hmain : listProducts ⟨cat, qs, mn, mx, some t⟩ db
          = .ok (applySort .newest
              (db.filter (matchesQuery ⟨cat, qs, mn, mx, some t⟩))) := by
        simp only [listProducts, Option.getD_some, hlookup]
      refine ⟨?_, _, hmain, List.sorted_insertionSort _ _⟩
      rw [hmain]
      rfl
  · intro t ht
    refine ⟨?_, rfl⟩
    have hmem : t = "constructor" ∨ t = "toString" ∨ t = "toLocaleString" ∨
        t = "valueOf" ∨ t = "hasOwnProperty" ∨ t = "isPrototypeOf" ∨
        t = "propertyIsEnumerable" ∨ t = "__defineGetter__" ∨
        t = "__defineSetter__" ∨ t = "__lookupGetter__" ∨
        t = "__lookupSetter__" := by
      simpa [objectProtoMethods] using ht
    rcases hmem with rfl | rfl | rfl | rfl | rfl | rfl | rfl | rfl | rfl | rfl | rfl <;>
      rfl

/-- Witness for C6: on a two-product store, the unknown sort value "bogus"
produces the newest-first listing sorted by descending creation time, and
the inherited name "toString" produces the 500. -/
theorem C6_product_sort_witness :
    listProducts ⟨none, none, none, none, some "bogus"⟩
      [{ id := "aaaaaaaaaaaa", title := "A", description := none, price := .fin 9,
         category := "C", thumbnail := none, owner := none, createdAt := 1 },
       { id := "bbbbbbbbbbbb", title := "B", description := none, price := .fin 2,
         category := "C", thumbnail := none, owner := none, createdAt := 4 }]
      = listProducts ⟨none, none, none, none, some "newest"⟩
      [{ id := "aaaaaaaaaaaa", title := "A", description := none, price := .fin 9,
         category := "C", thumbnail := none, owner := none, createdAt := 1 },
       { id := "bbbbbbbbbbbb", title := "B", description := none, price := .fin 2,
         category := "C", thumbnail := none, owner := none, createdAt := 4 }] ∧
    (∃ l, listProducts ⟨none, none, none, none, some "bogus"⟩
      [{ id := "aaaaaaaaaaaa", title := "A", description := none, price := .fin 9,
         category := "C", thumbnail := none, owner := none, createdAt := 1 },
       { id := "bbbbbbbbbbbb", title := "B", description := none, price := .fin 2,
         category := "C", thumbnail := none, owner := none, createdAt := 4 }]
      = .ok l ∧
      List.Sorted (fun a b => b.createdAt ≤ a.createdAt) l) ∧
    (listProducts ⟨none, none, none, none, some "toString"⟩
      [{ id := "aaaaaaaaaaaa", title := "A", description := none, price := .fin 9,
         category := "C", thumbnail := none, owner := none, createdAt := 1 }]
      = .error (.internal "Invalid sort argument") ∧
     ApiError.status (.internal "Invalid sort argument") = 500) := by
  refine ⟨?_, ?_, ?_⟩
  · exact ((C6_product_sort none none none none
      [{ id := "aaaaaaaaaaaa", title := "A", description := none, price := .fin 9,
         category := "C", thumbnail := none, owner := none, createdAt := 1 },
       { id := "bbbbbbbbbbbb", title := "B", description := none, price := .fin 2,
         category := "C", thumbnail := none, owner := none, createdAt := 4 }]).2.2.1
      (some "bogus")
      (Or.inr (fun t ht => by
        cases ht
        exact ⟨by decide, by decide, by decide, by decide⟩))).1
  · exact ((C6_product_sort none none none none
      [{ id := "aaaaaaaaaaaa", title := "A", description := none, price := .fin 9,
         category := "C", thumbnail := none, owner := none, createdAt := 1 },
       { id := "bbbbbbbbbbbb", title := "B", description := none, price := .fin 2,
         category := "C", thumbnail := none, owner := none, createdAt := 4 }]).2.2.1
      (some "bogus")
      (Or.inr (fun t ht => by
        cases ht
        exact ⟨by decide, by decide, by decide, by decide⟩))).2
  · exact (C6_product_sort none none none none
      [{ id := "aaaaaaaaaaaa", title := "A", description := none, price := .fin 9,
         category := "C", thumbnail := none, owner := none, createdAt := 1 }]).2.2.2.2
      "toString" (by decide)

/-- Claim C7 counterexample: the minimal product create rejects a supplied
price of 0 as a missing field (`!price` is true for the number 0), so
"price equal to 0 ... is not rejected as a missing field" fails on that
handler. -/
theorem C7_price_zero_counterexample :
    createProductMinimal "qqqqqqqqqqqq" 7
      { title := some "T", description := none, price := some (.fin 0),
        imageUrl := none, category := some "C", owner := none, thumbnail := none }
      [] = (.error .missingFields, []) ∧
    ApiError.status .missingFields = 400 :=
  ⟨rfl, rfl⟩

/-- Claim C7 (amended): in the validating product create, a request
succeeds exactly when title and category are present and non-empty and a
finite non-negative numeric price is supplied; the authenticated actor
becomes the owner and price 0 is accepted.  The minimal variant instead
rejects price 0 as a missing field (and records no owner). -/
theorem C7_product_create
    (actor nid : String) (now : Nat) (body : ProductBody) (db : List Product) :
    (∀ p db2, createProductChecked actor nid now body db = (.ok p, db2) →
      (∃ t, body.title = some t ∧ t ≠ "") ∧
      (∃ c, body.category = some c ∧ c ≠ "") ∧
      (∃ q : ℚ, body.price = some (.fin q) ∧ 0 ≤ q ∧ p.price = .fin q) ∧
      p.owner = some actor ∧ db2 = db ++ [p]) ∧
    (∀ t c, body.title = some t → t ≠ "" → body.category = some c → c ≠ "" →
      body.price = some (.fin 0) →
      ∃ p, createProductChecked actor nid now body db = (.ok p, db ++ [p]) ∧
        p.owner = some actor ∧ p.price = .fin 0) ∧
    (body.price = some (.fin 0) →
      createProductMinimal nid now body db = (.error .missingFields, db) ∧
      ApiError.status .missingFields = 400) := by
  refine ⟨?_, ?_, ?_⟩
  · intro p db2 h
    unfold createProductChecked at h
    cases ht : body.title with
    | none => rw [ht] at h; simp [strFalsy] at h
    | some t =>
    cases hpr : body.price with
    | none => rw [hpr] at h; simp at h
    | some pr =>
    cases hc : body.category with
    | none => rw [hc] at h; simp [strFalsy] at h
    | some c =>
    rw [ht, hpr, hc] at h
    by_cases hte : (t == "") = true
    · simp [strFalsy, hte] at h
    · by_cases hce : (c == "") = true
      · simp [strFalsy, hce] at h
      · rw [Bool.not_eq_true] at hte hce
        simp only [strFalsy, hte, hce, Option.isNone_none, Bool.or_self,
          Bool.false_or, Bool.or_false, Bool.false_eq_true, if_false,
          Option.isNone_some] at h
        cases pr with
        | nan => simp [JsNum.isFinite] at h
        | inf => simp [JsNum.isFinite] at h
        | negInf => simp [JsNum.isFinite] at h
        | fin q =>
          by_cases hlt : JsNum.lt (.fin q) (.fin 0) = true
          · simp [JsNum.isFinite, hlt] at h
          · rw [Bool.not_eq_true] at hlt
            simp only [JsNum.isFinite, Bool.not_true, hlt, Bool.or_false,
              Bool.false_eq_true, if_false, Prod.mk.injEq, Except.ok.injEq] at h
            obtain ⟨hp, hdb⟩ := h
            subst hp
            refine ⟨⟨t, rfl, by simpa using hte⟩, ⟨c, rfl, by simpa using hce⟩,
              ⟨q, rfl, ?_, rfl⟩, rfl, hdb.symm⟩
            have : ¬ (q < 0) := by simpa [JsNum.lt] using hlt
            linarith
  · intro t c ht hte hc hce hpr
    refine ⟨{ id := nid, title := t, description := body.description,
              price := .fin 0, category := c,
              thumbnail := if strFalsy body.imageUrl then none else body.imageUrl,
              owner := some actor, createdAt := now }, ?_, rfl, rfl⟩
    unfold createProductChecked
    rw [ht, hpr, hc]
    have e1 : (t == "") = false := by simpa using hte
    have e2 : (c == "") = false := by simpa using hce
    simp [strFalsy, e1, e2, JsNum.isFinite, JsNum.lt]
  · intro hpr
    refine ⟨?_, rfl⟩
    unfold createProductMinimal
    rw [hpr]
    simp [priceFalsy]

/-- Witness for C7: with title, category and price 0 supplied, the
validating create succeeds and sets the owner while the minimal create
answers "missing field". -/
theorem C7_product_create_witness :
    (∃ p, createProductChecked "uuuuuuuuuuuu" "qqqqqqqqqqqq" 7
      { title := some "T", description := none, price := some (.fin 0),
        imageUrl := none, category := some "C", owner := none, thumbnail := none }
      [] = (.ok p, [] ++ [p]) ∧
      p.owner = some "uuuuuuuuuuuu" ∧ p.price = .fin 0) ∧
    (createProductMinimal "qqqqqqqqqqqq" 7
      { title := some "T", description := none, price := some (.fin 0),
        imageUrl := none, category := some "C", owner := none, thumbnail := none }
      [] = (.error .missingFields, []) ∧
     ApiError.status .missingFields = 400) := by
  constructor
  · exact (C7_product_create "uuuuuuuuuuuu" "qqqqqqqqqqqq" 7
      { title := some "T", description := none, price := some (.fin 0),
        imageUrl := none, category := some "C", owner := none, thumbnail := none }
      []).2.1 "T" "C" rfl (by decide) rfl (by decide) rfl
  · exact (C7_product_create "uuuuuuuuuuuu" "qqqqqqqqqqqq" 7
      { title := some "T", description := none, price := some (.fin 0),
        imageUrl := none, category := some "C", owner := none, thumbnail := none }
      []).2.2 rfl

/-- Claim C8 counterexample: the unguarded product read hands a malformed
id straight to the driver, whose cast failure is passed to `next(err)` and
surfaces as a 500 - not the claimed 400 `InvalidId`. -/
theorem C8_malformed_id_counterexample :
    getProductByIdUnguarded "abc" [] = .error (.internal "CastError") ∧
    ApiError.status (.internal "CastError") = 500 ∧
    isValidObjectId "abc" = false :=
  ⟨rfl, rfl, rfl⟩

/-- Claim C8 (amended): every guarded `:id` route answers a malformed id
with 400 `InvalidId` and an unchanged store, while the unguarded product
read propagates the driver cast error as a 500. -/
theorem C8_invalid_id
    (id actor nid : String) (now : Nat) (rbody : ReviewBody)
    (pbody : ProductBody) (db : List Product) (reviews : List Review)
    (hbad : isValidObjectId id = false) :
    getProductById id db = .error (.invalidId "Invalid product id") ∧
    listReviewsForProduct id reviews = .error (.invalidId "Invalid product id") ∧
    createReview actor id nid now rbody db reviews
      = (.error (.invalidId "Invalid product id"), reviews) ∧
    updateReview actor id rbody reviews
      = (.error (.invalidId "Invalid review id"), reviews) ∧
    deleteReview actor id reviews
      = (.error (.invalidId "Invalid review id"), reviews) ∧
    updateProductWhitelist actor id pbody db
      = (.error (.invalidId "Invalid product id"), db) ∧
    ApiError.status (.invalidId "Invalid product id") = 400 ∧
    getProductByIdUnguarded id db = .error (.internal "CastError") ∧
    ApiError.status (.internal "CastError") = 500 := by
  refine ⟨?_, ?_, ?_, ?_, ?_, ?_, rfl, ?_, rfl⟩
  · unfold getProductById
    rw [hbad]
    rfl
  · unfold listReviewsForProduct
    rw [hbad]
    rfl
  · unfold createReview reviewChecks
    rw [hbad]
    rfl
  · unfold updateReview
    rw [hbad]
    rfl
  · unfold deleteReview
    rw [hbad]
    rfl
  · unfold updateProductWhitelist
    rw [hbad]
    rfl
  · unfold getProductByIdUnguarded dbFindProduct
    rw [hbad]
    rfl

/-- Witness for C8: the malformed id "abc" yields 400 on the guarded
routes and 500 on the unguarded read. -/
theorem C8_invalid_id_witness :
    getProductById "abc" [] = .error (.invalidId "Invalid product id") ∧
    listReviewsForProduct "abc" [] = .error (.invalidId "Invalid product id") ∧
    createReview "uuuuuuuuuuuu" "abc" "rrrrrrrrrrrr" 5
      { rating := some (.fin 4), comment := none, imageUrl := none, author := none }
      [] [] = (.error (.invalidId "Invalid product id"), []) ∧
    updateReview "uuuuuuuuuuuu" "abc"
      { rating := some (.fin 4), comment := none, imageUrl := none, author := none }
      [] = (.error (.invalidId "Invalid review id"), []) ∧
    deleteReview "uuuuuuuuuuuu" "abc" []
      = (.error (.invalidId "Invalid review id"), []) ∧
    updateProductWhitelist "uuuuuuuuuuuu" "abc"
      { title := none, description := none, price := none, imageUrl := none,
        category := none, owner := none, thumbnail := none }
      [] = (.error (.invalidId "Invalid product id"), []) ∧
    ApiError.status (.invalidId "Invalid product id") = 400 ∧
    getProductByIdUnguarded "abc" [] = .error (.internal "CastError") ∧
    ApiError.status (.internal "CastError") = 500 :=
  C8_invalid_id "abc" "uuuuuuuuuuuu" "rrrrrrrrrrrr" 5
    { rating := some (.fin 4), comment := none, imageUrl := none, author := none }
    { title := none, description := none, price := none, imageUrl := none,
      category := none, owner := none, thumbnail := none }
    [] [] rfl

/-- Claim C9: the stored author always comes from the verified token - two
review create requests that differ only in the author field of the body
behave identically, and every successful create stores the actor id as the
author. -/
theorem C9_author_from_token
    (actor pid nid : String) (now : Nat) (b1 b2 : ReviewBody)
    (products : List Product) (reviews : List Review)
    (hr : b1.rating = b2.rating) (hc : b1.comment = b2.comment)
    (hi : b1.imageUrl = b2.imageUrl) :
    createReview actor pid nid now b1 products reviews
      = createReview actor pid nid now b2 products reviews ∧
    (∀ rv rs, createReview actor pid nid now b1 products reviews = (.ok rv, rs) →
      rv.author = actor) := by
  obtain ⟨r1, c1, i1, a1⟩ := b1
  obtain ⟨r2, c2, i2, a2⟩ := b2
  simp only at hr hc hi
  subst hr
  subst hc
  subst hi
  refine ⟨rfl, ?_⟩
  intro rv rs hok
  obtain ⟨_, hins⟩ := createReview_ok_elim hok
  obtain ⟨hdoc, _, _, _⟩ := dbInsertReview_ok_elim hins
  rw [hdoc]
  rfl

/-- Witness for C9: two creates differing only in a body-supplied author
produce the same response and store, and the stored author is the token
identity. -/
theorem C9_author_from_token_witness :
    createReview "uuuuuuuuuuuu" "pppppppppppp" "rrrrrrrrrrrr" 5
      { rating := some (.fin 4), comment := none, imageUrl := none, author := none }
      [{ id := "pppppppppppp", title := "T", description := none, price := .fin 3,
         category := "C", thumbnail := none, owner := some "oooooooooooo", createdAt := 1 }]
      []
    = createReview "uuuuuuuuuuuu" "pppppppppppp" "rrrrrrrrrrrr" 5
      { rating := some (.fin 4), comment := none, imageUrl := none,
        author := some "wwwwwwwwwwww" }
      [{ id := "pppppppppppp", title := "T", description := none, price := .fin 3,
         category := "C", thumbnail := none, owner := some "oooooooooooo", createdAt := 1 }]
      [] ∧
    ({ id := "rrrrrrrrrrrr", product := "pppppppppppp", author := "uuuuuuuuuuuu",
       rating := some (.fin 4), comment := none, imageUrl := none,
       createdAt := 5 } : Review).author = "uuuuuuuuuuuu" := by
  constructor
  · exact (C9_author_from_token "uuuuuuuuuuuu" "pppppppppppp" "rrrrrrrrrrrr" 5
      { rating := some (.fin 4), comment := none, imageUrl := none, author := none }
      { rating := some (.fin 4), comment := none, imageUrl := none,
        author := some "wwwwwwwwwwww" }
      [{ id := "pppppppppppp", title := "T", description := none, price := .fin 3,
         category := "C", thumbnail := none, owner := some "oooooooooooo", createdAt := 1 }]
      [] rfl rfl rfl).1
  · exact (C9_author_from_token "uuuuuuuuuuuu" "pppppppppppp" "rrrrrrrrrrrr" 5
      { rating := some (.fin 4), comment := none, imageUrl := none, author := none }
      { rating := some (.fin 4), comment := none, imageUrl := none,
        author := some "wwwwwwwwwwww" }
      [{ id := "pppppppppppp", title := "T", description := none, price := .fin 3,
         category := "C", thumbnail := none, owner := some "oooooooooooo", createdAt := 1 }]
      [] rfl rfl rfl).2
      { id := "rrrrrrrrrrrr", product := "pppppppppppp", author := "uuuuuuuuuuuu",
        rating := some (.fin 4), comment := none, imageUrl := none, createdAt := 5 }
      [{ id := "rrrrrrrrrrrr", product := "pppppppppppp", author := "uuuuuuuuuuuu",
         rating := some (.fin 4), comment := none, imageUrl := none, createdAt := 5 }]
      (by rfl)

/-- Claim C10 counterexample: through the raw-body update variant the
owner of a product, sending a body whose owner field names another user,
transfers ownership - the stored owner changes to the body value. -/
theorem C10_owner_transfer_counterexample :
    updateProductRaw "uuuuuuuuuuuu" "pppppppppppp"
      { title := none, description := none, price := none, imageUrl := none,
        category := none, owner := some "vvvvvvvvvvvv", thumbnail := none }
      [{ id := "pppppppppppp", title := "T", description := none, price := .fin 3,
         category := "C", thumbnail := none, owner := some "uuuuuuuuuuuu", createdAt := 1 }]
      = (.ok { id := "pppppppppppp", title := "T", description := none,
               price := .fin 3, category := "C", thumbnail := none,
               owner := some "vvvvvvvvvvvv", createdAt := 1 },
         [{ id := "pppppppppppp", title := "T", description := none, price := .fin 3,
            category := "C", thumbnail := none, owner := some "vvvvvvvvvvvv",
            createdAt := 1 }]) ∧
    some "vvvvvvvvvvvv" ≠ some "uuuuuuuuuuuu" :=
  ⟨rfl, by decide⟩

/-- Claim C10 (amended): the whitelisted product update preserves id,
owner and creation time of the updated product and leaves every other
stored product in place, so it can modify at most title, description,
category, price and thumbnail; the raw-body update variant instead applies
any schema path present in the body, including owner, so ownership can be
transferred there. -/
theorem C10_update_frame
    (actor id : String) (body : ProductBody) (db : List Product)
    (product p2 : Product) (db2 : List Product)
    (hfind : dbFindProduct id db = .ok (some product)) :
    (updateProductWhitelist actor id body db = (.ok p2, db2) →
      p2.id = product.id ∧ p2.owner = product.owner ∧
      p2.createdAt = product.createdAt ∧
      db2 = db.map (fun p => if p.id == product.id then p2 else p)) ∧
    (updateProductRaw actor id body db = (.ok p2, db2) →
      ∀ x, body.owner = some x → p2.owner = some x) := by
  have hvalid : isValidObjectId id = true := by
    by_contra hv
    rw [Bool.not_eq_true] at hv
    unfold dbFindProduct at hfind
    rw [hv] at hfind
    simp at hfind
  constructor
  · intro hok
    unfold updateProductWhitelist at hok
    rw [hvalid] at hok
    simp only [Bool.not_true, Bool.false_eq_true, if_false, hfind] at hok
    cases ho : product.owner with
    | none => simp only [ho] at hok; simp at hok
    | some o =>
      simp only [ho] at hok
      by_cases hne : (o != actor) = true
      · simp only [hne, if_true] at hok; simp at hok
      · rw [Bool.not_eq_true] at hne
        simp only [hne, Bool.false_eq_true, if_false] at hok
        have hfields : p2 = whitelistUpdate product body ∧
            db2 = db.map (fun p =>
              if p.id == product.id then whitelistUpdate product body else p) := by
          cases hp : body.price with
          | none =>
            simp only [hp, Prod.mk.injEq, Except.ok.injEq] at hok
            exact ⟨hok.1.symm, hok.2.symm⟩
          | some pr =>
            simp only [hp] at hok
            by_cases hg : (!pr.isFinite || JsNum.lt pr (.fin 0)) = true
            · simp only [hg, if_true] at hok; simp at hok
            · rw [Bool.not_eq_true] at hg
              simp only [hg, Bool.false_eq_true, if_false, Prod.mk.injEq,
                Except.ok.injEq] at hok
              exact ⟨hok.1.symm, hok.2.symm⟩
        obtain ⟨hp2, hdb2⟩ := hfields
        subst hp2
        exact ⟨rfl, ho, rfl, by rw [hdb2]⟩
  · intro hok x hx
    unfold updateProductRaw at hok
    simp only [hfind] at hok
    cases ho : product.owner with
    | none => simp only [ho] at hok; simp at hok
    | some o =>
      simp only [ho] at hok
      by_cases hne : (o != actor) = true
      · simp only [hne, if_true] at hok; simp at hok
      · rw [Bool.not_eq_true] at hne
        simp only [hne, Bool.false_eq_true, if_false, Prod.mk.injEq,
          Except.ok.injEq] at hok
        rw [← hok.1]
        show (match body.owner with | some o => some o | none => product.owner) = some x
        rw [hx]

/-- Witness for C10: an owner update through the whitelisted route keeps
id, owner and creation time; the raw route applies a body owner field. -/
theorem C10_update_frame_witness :
    (({ id := "pppppppppppp", title := "U", description := none, price := .fin 3,
        category := "C", thumbnail := none, owner := some "uuuuuuuuuuuu",
        createdAt := 1 } : Product).id = "pppppppppppp" ∧
     ({ id := "pppppppppppp", title := "U", description := none, price := .fin 3,
        category := "C", thumbnail := none, owner := some "uuuuuuuuuuuu",
        createdAt := 1 } : Product).owner = some "uuuuuuuuuuuu" ∧
     ({ id := "pppppppppppp", title := "U", description := none, price := .fin 3,
        category := "C", thumbnail := none, owner := some "uuuuuuuuuuuu",
        createdAt := 1 } : Product).createdAt = 1 ∧
     ([({ id := "pppppppppppp", title := "U", description := none, price := .fin 3,
          category := "C", thumbnail := none, owner := some "uuuuuuuuuuuu",
          createdAt := 1 } : Product)])
       = ([{ id := "pppppppppppp", title := "T", description := none, price := .fin 3,
             category := "C", thumbnail := none, owner := some "uuuuuuuuuuuu",
             createdAt := 1 }] : List Product).map
         (fun p => if p.id == "pppppppppppp" then
            { id := "pppppppppppp", title := "U", description := none, price := .fin 3,
              category := "C", thumbnail := none, owner := some "uuuuuuuuuuuu",
              createdAt := 1 } else p)) ∧
    (({ id := "pppppppppppp", title := "T", description := none, price := .fin 3,
        category := "C", thumbnail := none, owner := some "vvvvvvvvvvvv",
        createdAt := 1 } : Product).owner = some "vvvvvvvvvvvv") := by
  constructor
  · refine (C10_update_frame "uuuuuuuuuuuu" "pppppppppppp"
      { title := some "U", description := none, price := none, imageUrl := none,
        category := none, owner := none, thumbnail := none }
      [{ id := "pppppppppppp", title := "T", description := none, price := .fin 3,
         category := "C", thumbnail := none, owner := some "uuuuuuuuuuuu", createdAt := 1 }]
      { id := "pppppppppppp", title := "T", description := none, price := .fin 3,
        category := "C", thumbnail := none, owner := some "uuuuuuuuuuuu", createdAt := 1 }
      { id := "pppppppppppp", title := "U", description := none, price := .fin 3,
        category := "C", thumbnail := none, owner := some "uuuuuuuuuuuu", createdAt := 1 }
      [{ id := "pppppppppppp", title := "U", description := none, price := .fin 3,
         category := "C", thumbnail := none, owner := some "uuuuuuuuuuuu", createdAt := 1 }]
      (by rfl)).1 (by rfl)
  · refine (C10_update_frame "uuuuuuuuuuuu" "pppppppppppp"
      { title := none, description := none, price := none, imageUrl := none,
        category := none, owner := some "vvvvvvvvvvvv", thumbnail := none }
      [{ id := "pppppppppppp", title := "T", description := none, price := .fin 3,
         category := "C", thumbnail := none, owner := some "uuuuuuuuuuuu", createdAt := 1 }]
      { id := "pppppppppppp", title := "T", description := none, price := .fin 3,
        category := "C", thumbnail := none, owner := some "uuuuuuuuuuuu", createdAt := 1 }
      { id := "pppppppppppp", title := "T", description := none, price := .fin 3,
        category := "C", thumbnail := none, owner := some "vvvvvvvvvvvv", createdAt := 1 }
      [{ id := "pppppppppppp", title := "T", description := none, price := .fin 3,
         category := "C", thumbnail := none, owner := some "vvvvvvvvvvvv", createdAt := 1 }]
      (by rfl)).2 (by rfl) "vvvvvvvvvvvv" rfl

end Shop
